import Mathlib

/-!
# Verification of the VeikkTabletDriver event translator

Shallow embedding of `src/veikk.py`: the `Tablet` state machine that
translates raw events from a physical graphics tablet into events for a
virtual uinput tablet device, together with the capability declaration
made in `Tablet.__enter__` and the error dispatch of `main`.

Python mutable attributes become an explicit `TabletState` record;
every method that mutates state and emits events becomes a function
`TabletState → TabletState × List OutEvent`.  `datetime.datetime.now()`
is modelled by an explicit `now : Nat` argument (its value is never read
back by the program, only stored in `lastmodif`).
-/

namespace Veikk

/-- Codes of raw events read from the physical device.  The translator
recognises `ABS_PRESSURE`, `ABS_X`, `ABS_Y`, `BTN_LEFT` and `SYN_REPORT`;
any other (type, code) pair falls into the `other` constructor and is
handled by the final `else` branch of `Tablet.handle_event`. -/
inductive RawCode where
  | absPressure : RawCode
  | absX : RawCode
  | absY : RawCode
  | btnLeft : RawCode
  | synReport : RawCode
  | other : Nat → Nat → RawCode
deriving DecidableEq, Repr

/-- A raw input event: a code together with its integer value
(`e.code`, `e.value` in the source). -/
structure RawEvent where
  code : RawCode
  value : Int
deriving DecidableEq, Repr

/-- Codes of events sent to the virtual uinput device. -/
inductive OutCode where
  | btnTouch : OutCode
  | btnToolPen : OutCode
  | btnStylus : OutCode
  | btnStylus2 : OutCode
  | synReport : OutCode
  | absX : OutCode
  | absY : OutCode
  | absPressure : OutCode
deriving DecidableEq, Repr

/-- An outgoing `libevdev.InputEvent(code, value)`. -/
structure OutEvent where
  code : OutCode
  value : Int
deriving DecidableEq, Repr

/-- The mutable attributes of the Python `Tablet` object that the
translator reads and writes: `is_away`, `is_touching`,
`pressed_button_1`, `pressed_button_2` and `lastmodif`. -/
structure TabletState where
  is_away : Bool
  is_touching : Bool
  pressed_button_1 : Bool
  pressed_button_2 : Bool
  lastmodif : Nat
deriving DecidableEq, Repr

/-- Source `Tablet.reset_state`: initial state set at the end of `__enter__`. -/
def reset_state (now : Nat) : TabletState :=
  { is_away := true
  , is_touching := false
  , pressed_button_1 := false
  , pressed_button_2 := false
  , lastmodif := now }

/-- Source `Tablet.send_events(events, is_away=False)`: records the
modification time, sets `is_away` (default `False`), and forwards the
given events to the uinput device unchanged. -/
def send_events (now : Nat) (s : TabletState) (events : List OutEvent)
    (is_away : Bool := false) : TabletState × List OutEvent :=
  ({ s with lastmodif := now, is_away := is_away }, events)

/-- Source `Tablet.send_state_no_pos(is_away=False)`: records the modification
time, sets `is_away` (default `False`), then emits the full snapshot
burst `BTN_TOUCH`, `BTN_TOOL_PEN`, `BTN_STYLUS`, `BTN_STYLUS2`,
`SYN_REPORT` computed from the current state. -/
def send_state_no_pos (now : Nat) (s : TabletState)
    (is_away : Bool := false) : TabletState × List OutEvent :=
  let s1 : TabletState := { s with lastmodif := now, is_away := is_away }
  (s1,
    [ { code := OutCode.btnTouch, value := if s1.is_touching then 1 else 0 }
    , { code := OutCode.btnToolPen, value := if !s1.is_away then 1 else 0 }
    , { code := OutCode.btnStylus, value := if s1.pressed_button_1 then 1 else 0 }
    , { code := OutCode.btnStylus2, value := if s1.pressed_button_2 then 1 else 0 }
    , { code := OutCode.synReport, value := 0 } ])

/-- Source `Tablet.touch_press`: set `is_touching` and emit a snapshot burst. -/
def touch_press (now : Nat) (s : TabletState) : TabletState × List OutEvent :=
  send_state_no_pos now { s with is_touching := true }

/-- Source `Tablet.touch_release`: clear `is_touching` and emit a snapshot burst. -/
def touch_release (now : Nat) (s : TabletState) : TabletState × List OutEvent :=
  send_state_no_pos now { s with is_touching := false }

/-- Source `Tablet.button_1_press`. -/
def button_1_press (now : Nat) (s : TabletState) : TabletState × List OutEvent :=
  send_state_no_pos now { s with pressed_button_1 := true }

/-- Source `Tablet.button_1_release`. -/
def button_1_release (now : Nat) (s : TabletState) : TabletState × List OutEvent :=
  send_state_no_pos now { s with pressed_button_1 := false }

/-- Source `Tablet.button_2_press`. -/
def button_2_press (now : Nat) (s : TabletState) : TabletState × List OutEvent :=
  send_state_no_pos now { s with pressed_button_2 := true }

/-- Source `Tablet.button_2_release`. -/
def button_2_release (now : Nat) (s : TabletState) : TabletState × List OutEvent :=
  send_state_no_pos now { s with pressed_button_2 := false }

/-- Source `Tablet.move_x(abs_x)`: forward a single `ABS_X` event (no sync). -/
def move_x (now : Nat) (s : TabletState) (abs_x : Int) : TabletState × List OutEvent :=
  send_events now s [{ code := OutCode.absX, value := abs_x }]

/-- Source `Tablet.move_y(abs_y)`: forward a single `ABS_Y` event (no sync). -/
def move_y (now : Nat) (s : TabletState) (abs_y : Int) : TabletState × List OutEvent :=
  send_events now s [{ code := OutCode.absY, value := abs_y }]

/-- Source `Tablet.change_pressure(pressure)`: forward a single `ABS_PRESSURE`
event (no sync). -/
def change_pressure (now : Nat) (s : TabletState) (pressure : Int) :
    TabletState × List OutEvent :=
  send_events now s [{ code := OutCode.absPressure, value := pressure }]

/-- Source `Tablet.handle_event(e)`: dispatch a raw event.  `SYN_REPORT` only
constructs an `InputEvent` that is immediately discarded (no state
change, no emission); an unrecognised code is printed and dropped. -/
def handle_event (now : Nat) (s : TabletState) (e : RawEvent) :
    TabletState × List OutEvent :=
  match e.code with
  | RawCode.absPressure => change_pressure now s e.value
  | RawCode.absX => move_x now s e.value
  | RawCode.absY => move_y now s e.value
  | RawCode.btnLeft => if e.value == 1 then touch_press now s else touch_release now s
  | RawCode.synReport => (s, [])
  | RawCode.other _ _ => (s, [])

/-- Fold `handle_event` over a list of raw events, concatenating the
emitted bursts in order (the `for e in ev` loops of `main`). -/
def handle_events (now : Nat) (s : TabletState) : List RawEvent → TabletState × List OutEvent
  | [] => (s, [])
  | e :: rest =>
    let p := handle_event now s e
    let q := handle_events now p.1 rest
    (q.1, p.2 ++ q.2)

/-- One read of the event source in `main`'s loop: either a regular
batch from `l.events()`, or an `EventsDroppedException` (overflow)
followed by the resync snapshot from `l.sync()`. -/
inductive SourceItem where
  | batch : List RawEvent → SourceItem
  | overflow : List RawEvent → SourceItem
deriving DecidableEq, Repr

/-- The processing loop of `main`: a regular batch and a resync snapshot are
both fed through `Tablet.handle_event` one event at a time. -/
def run_loop (now : Nat) (s : TabletState) : List SourceItem → TabletState × List OutEvent
  | [] => (s, [])
  | SourceItem.batch es :: rest =>
    let p := handle_events now s es
    let q := run_loop now p.1 rest
    (q.1, p.2 ++ q.2)
  | SourceItem.overflow snapshot :: rest =>
    let p := handle_events now s snapshot
    let q := run_loop now p.1 rest
    (q.1, p.2 ++ q.2)

/-! ## Capability declaration of `Tablet.__enter__` -/

/-- Record for `libevdev.InputAbsInfo`: unsupplied keyword arguments default
to zero. -/
structure AbsInfo where
  minimum : Int := 0
  maximum : Int := 0
  fuzz : Int := 0
  flat : Int := 0
  resolution : Int := 0
deriving DecidableEq, Repr

/-- Device properties enabled by `__enter__`. -/
inductive DeviceProp where
  | inputPropDirect : DeviceProp
deriving DecidableEq, Repr

/-- Key capabilities enabled by `__enter__`. -/
inductive CapKey where
  | btnToolPen : CapKey
  | btnToolRubber : CapKey
  | btnTouch : CapKey
  | btnStylus : CapKey
  | btnStylus2 : CapKey
deriving DecidableEq, Repr

/-- Absolute axes enabled by `__enter__`. -/
inductive CapAxis where
  | absX : CapAxis
  | absY : CapAxis
  | absPressure : CapAxis
deriving DecidableEq, Repr

/-- Sync capabilities enabled by `__enter__`. -/
inductive CapSyn where
  | synReport : CapSyn
  | synDropped : CapSyn
deriving DecidableEq, Repr

/-- The capability set accumulated by the `self.dev.enable(...)` calls. -/
structure CapabilityDescriptor where
  name : String
  properties : List DeviceProp
  keys : List CapKey
  axes : List (CapAxis × AbsInfo)
  syns : List CapSyn
deriving DecidableEq, Repr

/-- One argument of a `self.dev.enable(...)` call. -/
inductive EnableArg where
  | prop : DeviceProp → EnableArg
  | key : CapKey → EnableArg
  | axis : CapAxis → AbsInfo → EnableArg
  | syn : CapSyn → EnableArg
deriving DecidableEq, Repr

/-- Source `self.dev.enable(arg)`: add one capability to the device. -/
def enable (d : CapabilityDescriptor) : EnableArg → CapabilityDescriptor
  | EnableArg.prop p => { d with properties := d.properties ++ [p] }
  | EnableArg.key k => { d with keys := d.keys ++ [k] }
  | EnableArg.axis a info => { d with axes := d.axes ++ [(a, info)] }
  | EnableArg.syn m => { d with syns := d.syns ++ [m] }

/-- A fresh `libevdev.Device()` before any `enable` call; `__enter__`
assigns its name right after construction. -/
def freshDevice (name : String) : CapabilityDescriptor :=
  { name := name, properties := [], keys := [], axes := [], syns := [] }

/-- The exact sequence of `self.dev.enable(...)` calls performed by
`Tablet.__enter__`, in source order. -/
def enterEnableCalls : List EnableArg :=
  [ EnableArg.prop DeviceProp.inputPropDirect
  , EnableArg.key CapKey.btnToolPen
  , EnableArg.key CapKey.btnToolRubber
  , EnableArg.key CapKey.btnTouch
  , EnableArg.key CapKey.btnStylus
  , EnableArg.key CapKey.btnStylus2
  , EnableArg.axis CapAxis.absX { minimum := 0, maximum := 32767, resolution := 100 }
  , EnableArg.axis CapAxis.absY { minimum := 0, maximum := 32767, resolution := 100 }
  , EnableArg.axis CapAxis.absPressure { minimum := 0, maximum := 8191 }
  , EnableArg.syn CapSyn.synReport
  , EnableArg.syn CapSyn.synDropped ]

/-- The capability descriptor `Tablet.__enter__` hands to
`create_uinput_device()`. -/
def enterDescriptor : CapabilityDescriptor :=
  List.foldl enable (freshDevice "Tablet alone") enterEnableCalls

/-! ## Error dispatch of `main` -/

/-- Value of `errno.EACCES`. -/
def EACCES : Nat := 13

/-- Value of `errno.ENOENT`. -/
def ENOENT : Nat := 2

/-- How a run of `main`'s inner loop terminates: a `KeyboardInterrupt`,
or an `OSError` carrying an errno and a message (opening or reading the
device file).  The loop itself never returns normally. -/
inductive RunExit where
  | keyboardInterrupt : RunExit
  | osError : Nat → String → RunExit
deriving DecidableEq, Repr

/-- The externally observable outcome of `main`: a clean return to the
caller with the listed messages printed, or an uncaught exception
propagating out of `main` (a crash with a traceback). -/
inductive MainOutcome where
  | cleanExit : List String → MainOutcome
  | crash : String → MainOutcome
deriving DecidableEq, Repr

/-- The `except` chain at the bottom of `main`.  In Python 3 `IOError`
is an alias of `OSError`, so the `except IOError` clause catches every
`OSError`; the `raise e` in its final branch propagates out of `main`
(an exception raised inside an `except` block is not offered to the
later `except OSError` clause of the same `try`, which is therefore
unreachable). -/
def main_on_exit (path : String) : RunExit → MainOutcome
  | RunExit.keyboardInterrupt => MainOutcome.cleanExit []
  | RunExit.osError errnum msg =>
    if errnum == EACCES then
      MainOutcome.cleanExit ["Insufficient permissions to access " ++ path]
    else if errnum == ENOENT then
      MainOutcome.cleanExit ["Device " ++ path ++ " does not exist"]
    else
      MainOutcome.crash msg

/-! ## Helper lemmas -/

/-- A handled event either leaves the state untouched (`SYN_REPORT`,
unknown codes) or leaves it with `is_away = false` (every recognised
axis, touch or button action). -/
theorem handle_event_state_cases (now : Nat) (s : TabletState) (e : RawEvent) :
    (handle_event now s e).1 = s ∨ (handle_event now s e).1.is_away = false := by
  rcases e with ⟨code, value⟩
  cases code with
  | absPressure => exact Or.inr rfl
  | absX => exact Or.inr rfl
  | absY => exact Or.inr rfl
  | btnLeft =>
    refine Or.inr ?_
    by_cases h : (value == 1) = true
    · simp [handle_event, h, touch_press, send_state_no_pos]
    · simp [handle_event, h, touch_release, send_state_no_pos]
  | synReport => exact Or.inl rfl
  | other t c => exact Or.inl rfl

/-- Once the pen is not away, no handled event makes it away again. -/
theorem handle_event_preserves_not_away (now : Nat) (s : TabletState) (e : RawEvent)
    (h : s.is_away = false) : (handle_event now s e).1.is_away = false := by
  rcases handle_event_state_cases now s e with heq | hfalse
  · rw [heq]; exact h
  · exact hfalse

/-- List version of `handle_event_preserves_not_away`. -/
theorem handle_events_preserves_not_away (now : Nat) (s : TabletState)
    (es : List RawEvent) (h : s.is_away = false) :
    (handle_events now s es).1.is_away = false := by
  induction es generalizing s with
  | nil => exact h
  | cons e rest ih =>
    exact ih (handle_event now s e).1 (handle_event_preserves_not_away now s e h)

/-- Loop version of `handle_event_preserves_not_away`: both regular
batches and resync snapshots go through `handle_event`. -/
theorem run_loop_preserves_not_away (now : Nat) (s : TabletState)
    (items : List SourceItem) (h : s.is_away = false) :
    (run_loop now s items).1.is_away = false := by
  induction items generalizing s with
  | nil => exact h
  | cons item rest ih =>
    cases item with
    | batch es =>
      exact ih (handle_events now s es).1 (handle_events_preserves_not_away now s es h)
    | overflow snap =>
      exact ih (handle_events now s snap).1 (handle_events_preserves_not_away now s snap h)

/-- The away/touching invariant as a boolean predicate: never both
`is_away` and `is_touching`. -/
def awayInv (s : TabletState) : Bool :=
  !(s.is_away && s.is_touching)

/-- One handled event preserves the away/touching invariant. -/
theorem handle_event_awayInv (now : Nat) (s : TabletState) (e : RawEvent)
    (h : awayInv s = true) : awayInv (handle_event now s e).1 = true := by
  rcases handle_event_state_cases now s e with heq | hfalse
  · rw [heq]; exact h
  · simp [awayInv, hfalse]

/-- A batch of handled events preserves the away/touching invariant. -/
theorem handle_events_awayInv (now : Nat) (s : TabletState) (es : List RawEvent)
    (h : awayInv s = true) : awayInv (handle_events now s es).1 = true := by
  induction es generalizing s with
  | nil => exact h
  | cons e rest ih =>
    exact ih (handle_event now s e).1 (handle_event_awayInv now s e h)

/-- The whole processing loop preserves the away/touching invariant. -/
theorem run_loop_awayInv (now : Nat) (s : TabletState) (items : List SourceItem)
    (h : awayInv s = true) : awayInv (run_loop now s items).1 = true := by
  induction items generalizing s with
  | nil => exact h
  | cons item rest ih =>
    cases item with
    | batch es =>
      exact ih (handle_events now s es).1 (handle_events_awayInv now s es h)
    | overflow snap =>
      exact ih (handle_events now s snap).1 (handle_events_awayInv now s snap h)

/-! ## Claim theorems -/

/-- C1: every snapshot burst emitted by `send_state_no_pos` consists, in
this exact order, of touch-contact with value `is_touching`,
pen-proximity with value `not is_away`, stylus-button-1 with value
`pressed_button_1`, stylus-button-2 with value `pressed_button_2`, and a
sync marker — all read from the state at the instant of emission; from
the initial state, the input `[TouchKey=1, SyncMarker]` produces exactly
the burst `[touch=1, proximity=1, stylus1=0, stylus2=0, sync]`. -/
theorem snapshot_burst_shape_and_first_touch :
    (∀ (now : Nat) (s : TabletState) (a : Bool),
      (send_state_no_pos now s a).2 =
        [ { code := OutCode.btnTouch
          , value := if (send_state_no_pos now s a).1.is_touching then 1 else 0 }
        , { code := OutCode.btnToolPen
          , value := if (send_state_no_pos now s a).1.is_away then 0 else 1 }
        , { code := OutCode.btnStylus
          , value := if (send_state_no_pos now s a).1.pressed_button_1 then 1 else 0 }
        , { code := OutCode.btnStylus2
          , value := if (send_state_no_pos now s a).1.pressed_button_2 then 1 else 0 }
        , { code := OutCode.synReport, value := 0 } ]) ∧
    (handle_events 7 (reset_state 0)
        [ { code := RawCode.btnLeft, value := 1 }
        , { code := RawCode.synReport, value := 0 } ]).2 =
      [ { code := OutCode.btnTouch, value := 1 }
      , { code := OutCode.btnToolPen, value := 1 }
      , { code := OutCode.btnStylus, value := 0 }
      , { code := OutCode.btnStylus2, value := 0 }
      , { code := OutCode.synReport, value := 0 } ] := by
  constructor
  · intro now s a
    cases a <;> rfl
  · rfl

/-- C3: in every state reachable from the initial state by any sequence
of handled raw events, including resync snapshots after an overflow,
`is_away = true` implies `is_touching = false`. -/
theorem reachable_away_implies_not_touching (t0 now : Nat) (items : List SourceItem)
    (h : (run_loop now (reset_state t0) items).1.is_away = true) :
    (run_loop now (reset_state t0) items).1.is_touching = false := by
  have hinv : awayInv (run_loop now (reset_state t0) items).1 = true :=
    run_loop_awayInv now (reset_state t0) items rfl
  simp only [awayInv, h, Bool.true_and, Bool.not_eq_eq_eq_not, Bool.not_true] at hinv
  exact hinv

/-- Witness for C3: from the initial state, after processing no events,
`is_away` is `true` and the theorem yields `is_touching = false`. -/
theorem reachable_away_implies_not_touching_witness :
    (run_loop 0 (reset_state 0) []).1.is_away = true ∧
    (run_loop 0 (reset_state 0) []).1.is_touching = false :=
  ⟨rfl, reachable_away_implies_not_touching 0 0 [] rfl⟩

/-- C4 counterexample: handling an absolute-X event is not free of state
change — from the initial state it flips `is_away` from `true` to
`false`, and it overwrites `lastmodif` with the handling time. -/
theorem axis_event_changes_state :
    (reset_state 0).is_away = true ∧
    (handle_event 1 (reset_state 0) { code := RawCode.absX, value := 5 }).1.is_away = false ∧
    (reset_state 0).lastmodif = 0 ∧
    (handle_event 1 (reset_state 0) { code := RawCode.absX, value := 5 }).1.lastmodif = 1 := by
  exact ⟨rfl, rfl, rfl, rfl⟩

/-- C4 (amended): handling an absolute pressure, X, or Y raw event
forwards exactly the one axis event and leaves `is_touching`,
`pressed_button_1` and `pressed_button_2` unchanged, but sets `is_away`
to `false` and `lastmodif` to the handling time. -/
theorem axis_event_effect (now : Nat) (s : TabletState) (v : Int) :
    handle_event now s { code := RawCode.absPressure, value := v } =
      ({ s with is_away := false, lastmodif := now },
        [{ code := OutCode.absPressure, value := v }]) ∧
    handle_event now s { code := RawCode.absX, value := v } =
      ({ s with is_away := false, lastmodif := now },
        [{ code := OutCode.absX, value := v }]) ∧
    handle_event now s { code := RawCode.absY, value := v } =
      ({ s with is_away := false, lastmodif := now },
        [{ code := OutCode.absY, value := v }]) := by
  exact ⟨rfl, rfl, rfl⟩

/-- C5: applying the same touch or button transition twice in a row
leaves every boolean of the state as after the first application (only
`lastmodif` moves to the second handling time) and emits a second full
snapshot burst identical to the first; likewise for a repeated raw
touch-key event through `handle_event`. -/
theorem transition_idempotent (n1 n2 : Nat) (s : TabletState) :
    touch_press n2 (touch_press n1 s).1 =
      ({ (touch_press n1 s).1 with lastmodif := n2 }, (touch_press n1 s).2) ∧
    touch_release n2 (touch_release n1 s).1 =
      ({ (touch_release n1 s).1 with lastmodif := n2 }, (touch_release n1 s).2) ∧
    button_1_press n2 (button_1_press n1 s).1 =
      ({ (button_1_press n1 s).1 with lastmodif := n2 }, (button_1_press n1 s).2) ∧
    button_1_release n2 (button_1_release n1 s).1 =
      ({ (button_1_release n1 s).1 with lastmodif := n2 }, (button_1_release n1 s).2) ∧
    button_2_press n2 (button_2_press n1 s).1 =
      ({ (button_2_press n1 s).1 with lastmodif := n2 }, (button_2_press n1 s).2) ∧
    button_2_release n2 (button_2_release n1 s).1 =
      ({ (button_2_release n1 s).1 with lastmodif := n2 }, (button_2_release n1 s).2) ∧
    (∀ v : Int,
      handle_event n2 (handle_event n1 s { code := RawCode.btnLeft, value := v }).1
          { code := RawCode.btnLeft, value := v } =
        ({ (handle_event n1 s { code := RawCode.btnLeft, value := v }).1 with lastmodif := n2 },
          (handle_event n1 s { code := RawCode.btnLeft, value := v }).2)) := by
  refine ⟨rfl, rfl, rfl, rfl, rfl, rfl, ?_⟩
  intro v
  cases hb : (v == 1) <;> simp only [handle_event, hb] <;> rfl

/-- C6: axis passthrough is value-exact and appends no sync marker —
each axis handler emits exactly the one event carrying exactly the input
value, and the concrete input `[AbsPressure=1000]` yields exactly
`[pressure=1000]` with no sync marker in the output. -/
theorem axis_passthrough_exact (now : Nat) (s : TabletState) (v : Int) :
    (change_pressure now s v).2 = [{ code := OutCode.absPressure, value := v }] ∧
    (move_x now s v).2 = [{ code := OutCode.absX, value := v }] ∧
    (move_y now s v).2 = [{ code := OutCode.absY, value := v }] ∧
    (handle_events 3 (reset_state 0)
        [{ code := RawCode.absPressure, value := 1000 }]).2 =
      [{ code := OutCode.absPressure, value := 1000 }] ∧
    ((handle_events 3 (reset_state 0)
        [{ code := RawCode.absPressure, value := 1000 }]).2.all
      (fun ev => !(ev.code == OutCode.synReport))) = true := by
  exact ⟨rfl, rfl, rfl, rfl, rfl⟩

/-- C7: a raw event with an unsupported code is dropped without any
state change and without emitting anything (and `handle_event` is a
total function, so no error is ever raised); a batch with an undefined
code between two valid touch events still yields exactly the two
snapshot bursts, in order. -/
theorem unknown_event_dropped (now : Nat) (s : TabletState) (t c : Nat) (v : Int) :
    handle_event now s { code := RawCode.other t c, value := v } = (s, []) ∧
    (handle_events 5 (reset_state 0)
        [ { code := RawCode.btnLeft, value := 1 }
        , { code := RawCode.other 1 999, value := 1 }
        , { code := RawCode.btnLeft, value := 0 } ]).2 =
      [ { code := OutCode.btnTouch, value := 1 }
      , { code := OutCode.btnToolPen, value := 1 }
      , { code := OutCode.btnStylus, value := 0 }
      , { code := OutCode.btnStylus2, value := 0 }
      , { code := OutCode.synReport, value := 0 } ] ++
      [ { code := OutCode.btnTouch, value := 0 }
      , { code := OutCode.btnToolPen, value := 1 }
      , { code := OutCode.btnStylus, value := 0 }
      , { code := OutCode.btnStylus2, value := 0 }
      , { code := OutCode.synReport, value := 0 } ] := by
  exact ⟨rfl, rfl⟩

/-- C9: the capability declaration built by the `enable` calls of
`Tablet.__enter__` (a deterministic, total data construction) declares
exactly the direct-positioning property; the keys pen-proximity,
eraser-proximity, touch-contact, stylus-button-1, stylus-button-2; the
sync-report and buffer-overflow-report markers; X and Y absolute axes
with range 0 to 32767 and resolution 100; and a pressure axis with range
0 to 8191 and resolution left at zero. -/
theorem enter_capabilities :
    enterDescriptor =
      { name := "Tablet alone"
      , properties := [DeviceProp.inputPropDirect]
      , keys := [ CapKey.btnToolPen, CapKey.btnToolRubber, CapKey.btnTouch
                , CapKey.btnStylus, CapKey.btnStylus2 ]
      , axes := [ (CapAxis.absX, { minimum := 0, maximum := 32767, fuzz := 0, flat := 0, resolution := 100 })
                , (CapAxis.absY, { minimum := 0, maximum := 32767, fuzz := 0, flat := 0, resolution := 100 })
                , (CapAxis.absPressure, { minimum := 0, maximum := 8191, fuzz := 0, flat := 0, resolution := 0 }) ]
      , syns := [CapSyn.synReport, CapSyn.synDropped] } := by
  rfl

/-- C10 (implicit): the initial state has `is_away = true`; handling any
supported state-relevant raw event (touch key or any absolute axis), or
calling any button transition, leaves `is_away = false`; and from any
state with `is_away = false` the rest of the run — regular batches and
resync snapshots alike — never makes the device report away again. -/
theorem supported_event_clears_away (t0 n1 n2 : Nat) (s : TabletState) (e : RawEvent)
    (items : List SourceItem)
    (h : e.code ∈ [RawCode.absPressure, RawCode.absX, RawCode.absY, RawCode.btnLeft]) :
    (reset_state t0).is_away = true ∧
    (handle_event n1 s e).1.is_away = false ∧
    (run_loop n2 (handle_event n1 s e).1 items).1.is_away = false ∧
    (button_1_press n1 s).1.is_away = false ∧
    (button_1_release n1 s).1.is_away = false ∧
    (button_2_press n1 s).1.is_away = false ∧
    (button_2_release n1 s).1.is_away = false ∧
    (run_loop n2 (button_1_press n1 s).1 items).1.is_away = false := by
  have hev : (handle_event n1 s e).1.is_away = false := by
    rcases e with ⟨code, value⟩
    simp only [List.mem_cons, List.not_mem_nil, or_false] at h
    rcases h with h | h | h | h <;> subst h
    · rfl
    · rfl
    · rfl
    · cases hb : (value == 1) <;> simp only [handle_event, hb] <;> rfl
  refine ⟨rfl, hev, run_loop_preserves_not_away n2 _ items hev, rfl, rfl, rfl, rfl,
    run_loop_preserves_not_away n2 _ items rfl⟩

/-- Witness for C10: instantiated with a concrete touch-press event
followed by a batch holding only a sync marker. -/
theorem supported_event_clears_away_witness :
    (reset_state 0).is_away = true ∧
    (handle_event 1 (reset_state 0) { code := RawCode.btnLeft, value := 1 }).1.is_away = false ∧
    (run_loop 2 (handle_event 1 (reset_state 0) { code := RawCode.btnLeft, value := 1 }).1
      [SourceItem.batch [{ code := RawCode.synReport, value := 0 }]]).1.is_away = false ∧
    (button_1_press 1 (reset_state 0)).1.is_away = false ∧
    (button_1_release 1 (reset_state 0)).1.is_away = false ∧
    (button_2_press 1 (reset_state 0)).1.is_away = false ∧
    (button_2_release 1 (reset_state 0)).1.is_away = false ∧
    (run_loop 2 (button_1_press 1 (reset_state 0)).1
      [SourceItem.batch [{ code := RawCode.synReport, value := 0 }]]).1.is_away = false :=
  supported_event_clears_away 0 1 2 (reset_state 0) { code := RawCode.btnLeft, value := 1 }
    [SourceItem.batch [{ code := RawCode.synReport, value := 0 }]] (by decide)

/-- C2 counterexample: for the spec's input `[Overflow,
SnapshotBatch(touch=0, away=1)]` — the away indication carried by a
code the handler does not recognise, since no raw away code exists in
the supported set — the code emits the burst `[touch=0, proximity=1,
stylus1=0, stylus2=0, sync]`, not the claimed `[touch=0, proximity=0,
stylus1=0, stylus2=0, sync]`, and the state after resync has
`is_away = false` although the snapshot implies away; so resync does not
restore the state implied by the snapshot. -/
theorem resync_away_not_restored :
    (run_loop 9 (reset_state 0)
        [SourceItem.overflow
          [ { code := RawCode.btnLeft, value := 0 }
          , { code := RawCode.other 1 320, value := 1 } ]]).2 =
      [ { code := OutCode.btnTouch, value := 0 }
      , { code := OutCode.btnToolPen, value := 1 }
      , { code := OutCode.btnStylus, value := 0 }
      , { code := OutCode.btnStylus2, value := 0 }
      , { code := OutCode.synReport, value := 0 } ] ∧
    (run_loop 9 (reset_state 0)
        [SourceItem.overflow
          [ { code := RawCode.btnLeft, value := 0 }
          , { code := RawCode.other 1 320, value := 1 } ]]).1.is_away = false ∧
    (run_loop 9 (reset_state 0)
        [SourceItem.overflow
          [ { code := RawCode.btnLeft, value := 0 }
          , { code := RawCode.other 1 320, value := 1 } ]]).2 ≠
      [ { code := OutCode.btnTouch, value := 0 }
      , { code := OutCode.btnToolPen, value := 0 }
      , { code := OutCode.btnStylus, value := 0 }
      , { code := OutCode.btnStylus2, value := 0 }
      , { code := OutCode.synReport, value := 0 } ] := by
  exact ⟨rfl, rfl, by decide⟩

/-- C2 (amended): on overflow the resync snapshot is replayed through
the ordinary per-event handler rather than replacing state wholesale:
for any prior state, the touch event of the snapshot overwrites
`is_touching` with its value and emits one full snapshot burst with
`is_away` forced to `false` (so the emitted proximity is always 1),
while the stylus-button values in the burst carry over the prior
state's button booleans untouched, and unrecognised snapshot codes —
including any away indication — are dropped; from the initial state,
the input `[Overflow, SnapshotBatch(touch=0, away=1)]` yields the
single burst `[touch=0, proximity=1, stylus1=0, stylus2=0, sync]`. -/
theorem resync_replays_through_handler (now : Nat) (s : TabletState) :
    run_loop now s
        [SourceItem.overflow
          [ { code := RawCode.btnLeft, value := 0 }
          , { code := RawCode.other 1 320, value := 1 } ]] =
      ({ s with is_touching := false, is_away := false, lastmodif := now },
        [ { code := OutCode.btnTouch, value := 0 }
        , { code := OutCode.btnToolPen, value := 1 }
        , { code := OutCode.btnStylus, value := if s.pressed_button_1 then 1 else 0 }
        , { code := OutCode.btnStylus2, value := if s.pressed_button_2 then 1 else 0 }
        , { code := OutCode.synReport, value := 0 } ]) ∧
    (run_loop 4 (reset_state 0)
        [SourceItem.overflow
          [ { code := RawCode.btnLeft, value := 0 }
          , { code := RawCode.other 1 320, value := 1 } ]]).2 =
      [ { code := OutCode.btnTouch, value := 0 }
      , { code := OutCode.btnToolPen, value := 1 }
      , { code := OutCode.btnStylus, value := 0 }
      , { code := OutCode.btnStylus2, value := 0 }
      , { code := OutCode.synReport, value := 0 } ] := by
  exact ⟨rfl, rfl⟩

/-- C8: of the error taxonomy of `main`, three branches behave as
specified — a user interrupt exits silently and cleanly, a permission
error prints a message naming the path and returns cleanly, a
nonexistent path prints a message and returns cleanly — but any other
OS error is re-raised out of `main` (an uncaught-exception crash), not
printed verbatim with a clean exit: the later `except OSError` clause
is unreachable because in Python 3 `IOError` aliases `OSError`. -/
theorem main_error_dispatch :
    main_on_exit "/dev/input/event0" RunExit.keyboardInterrupt =
      MainOutcome.cleanExit [] ∧
    main_on_exit "/dev/input/event0" (RunExit.osError 13 "Permission denied") =
      MainOutcome.cleanExit ["Insufficient permissions to access /dev/input/event0"] ∧
    main_on_exit "/dev/input/event0" (RunExit.osError 2 "No such file or directory") =
      MainOutcome.cleanExit ["Device /dev/input/event0 does not exist"] ∧
    main_on_exit "/dev/input/event0" (RunExit.osError 19 "No such device") =
      MainOutcome.crash "No such device" := by
  exact ⟨rfl, rfl, rfl, rfl⟩

end Veikk
